import Mathlib

/-!
Verification of the Maneuver-2026 match-scouting core.

This file shallowly embeds the data model and operations of the repository:
the path-waypoint action records produced by the Auto/Teleop field-map
trackers, the action→counter transformation, the scoring calculator
(`scoring.ts`), the team-statistics aggregator (`teamStats`), and the
alliance roster validation, and proves the spec's testable properties
about them.
-/

namespace Maneuver

/-- Action types of `PathWaypoint.type` (field-map `PathActionType`).
The `unknown` constructor stands for any action tag not recognised by the
transformer (forward/backward schema drift across seasons). -/
inductive PathActionType
  | start
  | traversal
  | score
  | pass
  | collect
  | climb
  | defense
  | steal
  | foul
  | unknown (tag : String)
  deriving DecidableEq, Repr

/-- One committed or pending scouting action (field-map `PathWaypoint`).
`fuelDelta` is the signed fuel quantity; `position` is absent for the
minimal defense/steal actions; timestamps come from `Date.now()`. -/
structure PathWaypoint where
  id : String
  type : PathActionType
  action : String
  position : Option (ℚ × ℚ) := none
  fuelDelta : Option Int := none
  amountLabel : Option String := none
  timestamp : Int := 0
  climbLevel : Option String := none
  climbResult : Option String := none
  deriving DecidableEq, Repr

/-- `Math.abs(a.fuelDelta || 0)` of a waypoint. -/
def absDelta (a : PathWaypoint) : Nat :=
  (a.fuelDelta.getD 0).natAbs

/-- `TeleopFieldMap.tsx` / `AutoFieldMap` total-scored counter:
`actions.filter(a => a.type === 'score').reduce((s, a) => s + Math.abs(a.fuelDelta || 0), 0)`. -/
def totalFuelScored (actions : List PathWaypoint) : Nat :=
  (actions.filter (fun a => a.type == PathActionType.score)).foldl
    (fun s a => s + absDelta a) 0

/-- `TeleopFieldMap.tsx` / `AutoFieldMap` total-passed counter. -/
def totalFuelPassed (actions : List PathWaypoint) : Nat :=
  (actions.filter (fun a => a.type == PathActionType.pass)).foldl
    (fun s a => s + absDelta a) 0

/-- Per-phase numeric counters of the persisted 2026 counter record. -/
structure PhaseCounters where
  fuelScoredCount : Nat := 0
  fuelPassedCount : Nat := 0
  trenchStuckCount : Nat := 0
  bumpStuckCount : Nat := 0
  foulCount : Nat := 0
  defenseCount : Nat := 0
  stealCount : Nat := 0
  climbSuccess : Bool := false
  climbFailed : Bool := false
  deriving DecidableEq, Repr

/-- Modelled from the spec: one step of the Action→Counter Transformer fold
(§4.3); the game-year transformation module that produces `fuelScoredCount`
and friends is not among the provided sources (only its template and its
consumers are), so this follows the spec's routing: `score` adds
`abs(fuelDelta)` to the scored count, `pass` to the passed count, `climb`
sets a boolean per outcome, stuck traversals bump a stuck counter,
`foul`/`defense`/`steal` increment simple counters, all other types are
ignored. -/
def countStep (c : PhaseCounters) (a : PathWaypoint) : PhaseCounters :=
  match a.type with
  | .score => { c with fuelScoredCount := c.fuelScoredCount + absDelta a }
  | .pass => { c with fuelPassedCount := c.fuelPassedCount + absDelta a }
  | .climb =>
      if a.action == "climb-success" then { c with climbSuccess := true }
      else { c with climbFailed := true }
  | .traversal =>
      if a.action == "trench-stuck" then
        { c with trenchStuckCount := c.trenchStuckCount + 1 }
      else if a.action == "bump-stuck" then
        { c with bumpStuckCount := c.bumpStuckCount + 1 }
      else c
  | .foul => { c with foulCount := c.foulCount + 1 }
  | .defense => { c with defenseCount := c.defenseCount + 1 }
  | .steal => { c with stealCount := c.stealCount + 1 }
  | _ => c

/-- Modelled from the spec: per-phase fold of the Action→Counter
Transformer, all counters initialised to zero/false. -/
def transformPhase (log : List PathWaypoint) : PhaseCounters :=
  log.foldl countStep {}

/-- Raw status toggles collected outside the action stream (flat
key→boolean objects per phase). -/
structure StatusToggles where
  auto : List (String × Bool) := []
  teleop : List (String × Bool) := []
  endgame : List (String × Bool) := []
  deriving DecidableEq, Repr

/-- The canonical 2026 counter record produced at phase end. -/
structure CounterRecord where
  startPosition : Option Nat := none
  auto : PhaseCounters
  teleop : PhaseCounters
  autoStatus : List (String × Bool) := []
  teleopStatus : List (String × Bool) := []
  endgameStatus : List (String × Bool) := []
  deriving DecidableEq, Repr

/-- Modelled from the spec: the 2026 Action→Counter Transformer
`transform(actionLog, statusToggles) → CounterRecord` (§4.3): fold each
phase's log into counters, then overlay the raw status toggles. -/
def transform (autoLog teleopLog : List PathWaypoint) (toggles : StatusToggles)
    (startPosition : Option Nat) : CounterRecord :=
  { startPosition := startPosition
    auto := transformPhase autoLog
    teleop := transformPhase teleopLog
    autoStatus := toggles.auto
    teleopStatus := toggles.teleop
    endgameStatus := toggles.endgame }

theorem countStep_fuelScored (c : PhaseCounters) (a : PathWaypoint) :
    (countStep c a).fuelScoredCount =
      c.fuelScoredCount + (if a.type == PathActionType.score then absDelta a else 0) := by
  rcases a with ⟨id, ty, act, pos, fd, lbl, ts, cl, cr⟩
  cases ty <;> simp only [countStep] <;> (try (split <;> try split)) <;> simp_all

theorem foldl_countStep_fuelScored (l : List PathWaypoint) (c : PhaseCounters) :
    (l.foldl countStep c).fuelScoredCount =
      c.fuelScoredCount +
        ((l.filter (fun a => a.type == PathActionType.score)).map absDelta).sum := by
  induction l generalizing c with
  | nil => simp
  | cons a tl ih =>
      simp only [List.foldl_cons, ih, countStep_fuelScored, List.filter_cons]
      split <;> simp <;> ring

theorem foldl_add_absDelta (l : List PathWaypoint) (n : Nat) :
    l.foldl (fun s a => s + absDelta a) n = n + (l.map absDelta).sum := by
  induction l generalizing n with
  | nil => simp
  | cons a tl ih => simp [ih, Nat.add_assoc]

theorem totalFuelScored_eq (l : List PathWaypoint) :
    totalFuelScored l =
      ((l.filter (fun a => a.type == PathActionType.score)).map absDelta).sum := by
  unfold totalFuelScored
  rw [foldl_add_absDelta, Nat.zero_add]

/-- Claim C1: for every action log and status-toggle set given to the
Action→Counter Transformer, the scored count of the resulting counter
record equals the sum of `abs(fuelDelta)` over all score-type actions in
that log (for both phases, and it agrees with the field map's
`totalFuelScored` display counter); in particular, an auto log of exactly
two score actions with `fuelDelta = -8` yields an auto scored count of 16. -/
theorem scored_count_conservation :
    (∀ (autoLog teleopLog : List PathWaypoint) (tg : StatusToggles) (sp : Option Nat),
      (transform autoLog teleopLog tg sp).auto.fuelScoredCount =
        ((autoLog.filter (fun a => a.type == PathActionType.score)).map absDelta).sum ∧
      (transform autoLog teleopLog tg sp).teleop.fuelScoredCount =
        ((teleopLog.filter (fun a => a.type == PathActionType.score)).map absDelta).sum ∧
      (transform autoLog teleopLog tg sp).auto.fuelScoredCount = totalFuelScored autoLog) ∧
    (transform
      [{ id := "a1", type := .score, action := "shot_hub", timestamp := 1,
         fuelDelta := some (-8) },
       { id := "a2", type := .score, action := "shot_hub", timestamp := 2,
         fuelDelta := some (-8) }]
      [] {} none).auto.fuelScoredCount = 16 := by
  constructor
  · intro autoLog teleopLog tg sp
    refine ⟨?_, ?_, ?_⟩ <;>
      simp [transform, transformPhase, foldl_countStep_fuelScored, totalFuelScored_eq]
  · rfl

/-! ## Template transformation (`transformActionsToCounters`, part_007) -/

/-- A flat JS value held by a counter / status / generic field. -/
inductive JVal
  | num (n : ℚ)
  | bool (b : Bool)
  | str (s : String)
  | nul
  deriving DecidableEq, Repr

/-- `Object.assign(base, overlay)` on flat objects: every key of `overlay`
wins over the same key of `base`. -/
def objAssign (base overlay : List (String × JVal)) : List (String × JVal) :=
  (base.filter (fun kv => !(overlay.any (fun ov => ov.1 == kv.1)))) ++ overlay

/-- An entry of a raw action array fed to the template transformation. -/
structure TemplateAction where
  actionType : String
  deriving DecidableEq, Repr

/-- The `matchData` argument of `transformActionsToCounters`: optional raw
action arrays, optional per-phase robot-status objects, an optional
start-position boolean array and any further generic fields. -/
structure TemplateMatchData where
  startPosition : Option (List Bool) := none
  autoActions : Option (List TemplateAction) := none
  teleopActions : Option (List TemplateAction) := none
  autoRobotStatus : Option (List (String × JVal)) := none
  teleopRobotStatus : Option (List (String × JVal)) := none
  endgameRobotStatus : Option (List (String × JVal)) := none
  additionalFields : List (String × JVal) := []
  deriving DecidableEq, Repr

/-- The counter record built by the template transformation: three phase
objects plus the generic leftover fields copied onto the top level. -/
structure TemplateResult where
  auto : List (String × JVal)
  teleop : List (String × JVal)
  endgame : List (String × JVal)
  additionalFields : List (String × JVal)
  deriving DecidableEq, Repr

/-- Number of raw actions of a given `actionType` (the `forEach` counting
loops of the template transformation; `none` arrays count as empty). -/
def countTemplateActions (l : Option (List TemplateAction)) (t : String) : Nat :=
  ((l.getD []).filter (fun a => a.actionType == t)).length

/-- `gameDataTransformation.transformActionsToCounters` (part_007):
extract the selected start-position index, initialise all counters to
zero and the endgame booleans to false, count `action1`/`action2`
occurrences per phase, overlay the robot-status objects with
`Object.assign`, and copy the remaining generic fields. -/
def transformActionsToCounters (m : TemplateMatchData) : TemplateResult :=
  let selectedPosition := m.startPosition.map (fun poss => poss.findIdx? (fun pos => pos == true))
  let startPosition : JVal :=
    match selectedPosition with
    | some (some i) => .num i
    | _ => .nul
  let auto0 : List (String × JVal) :=
    [("startPosition", startPosition),
     ("action1Count", .num (countTemplateActions m.autoActions "action1")),
     ("action2Count", .num (countTemplateActions m.autoActions "action2")),
     ("action3Count", .num 0),
     ("action4Count", .num 0)]
  let teleop0 : List (String × JVal) :=
    [("action1Count", .num (countTemplateActions m.teleopActions "action1")),
     ("action2Count", .num (countTemplateActions m.teleopActions "action2")),
     ("action3Count", .num 0)]
  let endgame0 : List (String × JVal) :=
    [("success", .bool false), ("park", .bool false), ("failed", .bool false)]
  { auto := objAssign auto0 (m.autoRobotStatus.getD [])
    teleop := objAssign teleop0 (m.teleopRobotStatus.getD [])
    endgame := objAssign endgame0 (m.endgameRobotStatus.getD [])
    additionalFields := m.additionalFields }

/-- Claim C3: `transformActionsToCounters` is deterministic and idempotent —
two calls on the same action arrays and status-toggle objects return
structurally identical counter records, and no state carries over between
calls (the output is a function of the argument alone), so re-running on an
unchanged log never double-counts. -/
theorem transformActionsToCounters_deterministic :
    ∀ m m' : TemplateMatchData, m = m' →
      transformActionsToCounters m = transformActionsToCounters m ∧
      transformActionsToCounters m = transformActionsToCounters m' := by
  intro m m' h
  exact ⟨rfl, by rw [h]⟩

/-- Witness for C3 at a concrete match-data value: a one-action auto log
with a status toggle, transformed twice, gives identical records. -/
theorem transformActionsToCounters_deterministic_witness :
    transformActionsToCounters
        { startPosition := some [false, true, false],
          autoActions := some [⟨"action1"⟩, ⟨"action2"⟩, ⟨"action1"⟩],
          autoRobotStatus := some [("mobility", .bool true)] } =
      transformActionsToCounters
        { startPosition := some [false, true, false],
          autoActions := some [⟨"action1"⟩, ⟨"action2"⟩, ⟨"action1"⟩],
          autoRobotStatus := some [("mobility", .bool true)] } ∧
    transformActionsToCounters
        { startPosition := some [false, true, false],
          autoActions := some [⟨"action1"⟩, ⟨"action2"⟩, ⟨"action1"⟩],
          autoRobotStatus := some [("mobility", .bool true)] } =
      transformActionsToCounters
        { startPosition := some [false, true, false],
          autoActions := some [⟨"action1"⟩, ⟨"action2"⟩, ⟨"action1"⟩],
          autoRobotStatus := some [("mobility", .bool true)] } :=
  transformActionsToCounters_deterministic _ _ rfl

/-! ## Scoring calculator (`scoring.ts`) -/

/-- First value stored under key `k` of a flat JS object. -/
def lookupKey (l : List (String × JVal)) (k : String) : Option JVal :=
  (l.find? (fun kv => kv.1 == k)).map Prod.snd

/-- Numeric read with fallback (`val(x)` / `x as number || 0`): a stored
number is returned, anything else (missing, boolean, string, null) reads
as 0. -/
def numVal (l : List (String × JVal)) (k : String) : ℚ :=
  match lookupKey l k with
  | some (.num q) => q
  | _ => 0

/-- Strict boolean read (`x === true`). -/
def boolVal (l : List (String × JVal)) (k : String) : Bool :=
  lookupKey l k == some (.bool true)

/-- The persisted `gameData` of one scouting entry: three flat per-phase
counter/toggle objects. -/
structure GameDataRec where
  auto : List (String × JVal) := []
  teleop : List (String × JVal) := []
  endgame : List (String × JVal) := []
  deriving DecidableEq, Repr

/-- A scouting entry as consumed by scoring and statistics (only the
`gameData` member is read by them). -/
structure ScoutingEntry where
  gameData : GameDataRec
  deriving DecidableEq, Repr

/-- The season game schema (`game-schema.ts`, external configuration):
action keys with per-phase point values and endgame toggle keys with
point values. `getActionPoints` already applies the `?? 0` fallback. -/
structure GameSchema where
  actionKeys : List String
  autoPointsOf : String → ℚ
  teleopPointsOf : String → ℚ
  endgameKeys : List String
  endgamePointsOf : String → ℚ

/-- `scoringCalculations.calculateAutoPoints`: over every schema action key
with a positive auto point value, add `count × points` where the count is
read from `gameData.auto[key + "Count"]` with fallback 0. -/
def calculateAutoPoints (S : GameSchema) (entry : ScoutingEntry) : ℚ :=
  S.actionKeys.foldl
    (fun points key =>
      let autoPoints := S.autoPointsOf key
      if 0 < autoPoints then
        points + numVal entry.gameData.auto (key ++ "Count") * autoPoints
      else points)
    0

/-- `scoringCalculations.calculateTeleopPoints`. -/
def calculateTeleopPoints (S : GameSchema) (entry : ScoutingEntry) : ℚ :=
  S.actionKeys.foldl
    (fun points key =>
      let teleopPoints := S.teleopPointsOf key
      if 0 < teleopPoints then
        points + numVal entry.gameData.teleop (key ++ "Count") * teleopPoints
      else points)
    0

/-- `scoringCalculations.calculateEndgamePoints`: flat bonus for every
endgame toggle that is strictly `true`. -/
def calculateEndgamePoints (S : GameSchema) (entry : ScoutingEntry) : ℚ :=
  S.endgameKeys.foldl
    (fun points key =>
      if boolVal entry.gameData.endgame key then points + S.endgamePointsOf key
      else points)
    0

/-- `scoringCalculations.calculateTotalPoints`. -/
def calculateTotalPoints (S : GameSchema) (entry : ScoutingEntry) : ℚ :=
  calculateAutoPoints S entry + calculateTeleopPoints S entry +
    calculateEndgamePoints S entry

/-- Claim C4: for every scouting entry (and every season schema),
`calculateTotalPoints` equals the sum of `calculateAutoPoints`,
`calculateTeleopPoints` and `calculateEndgamePoints` of that entry. -/
theorem calculateTotalPoints_additive :
    ∀ (S : GameSchema) (entry : ScoutingEntry),
      calculateTotalPoints S entry =
        calculateAutoPoints S entry + calculateTeleopPoints S entry +
          calculateEndgamePoints S entry :=
  fun _ _ => rfl

/-! ## Team statistics (`teamStats`, part_002) -/

/-- `sum(arr, fn)` of the statistics module. -/
def sumBy {α : Type} (l : List α) (f : α → ℚ) : ℚ :=
  l.foldl (fun acc x => acc + f x) 0

/-- `round(n, decimals = 1)`: `Math.round(n·10^d)/10^d`, with JS
`Math.round` rounding half toward +∞. -/
def round (n : ℚ) (decimals : Nat := 1) : ℚ :=
  (⌊n * 10 ^ decimals + 1 / 2⌋ : ℚ) / 10 ^ decimals

/-- `percent(count, total)`: the half-up rounded percentage
`Math.round(count/total·100)` and 0 for an empty total (never divides by
zero). For naturals, `Math.round(100c/t) = ⌊(200c + t)/(2t)⌋`. -/
def percent (count total : Nat) : Nat :=
  if 0 < total then (200 * count + total) / (2 * total) else 0

/-- `m.gameData?.auto?.startPosition` when it is a number
(the `typeof pos === 'number'` check). -/
def startPositionVal (m : ScoutingEntry) : Option ℚ :=
  match lookupKey m.gameData.auto "startPosition" with
  | some (.num q) => some q
  | _ => none

/-- `positionCounts[i]`: matches whose start position equals bucket `i`. -/
def countPos (ms : List ScoutingEntry) (i : Nat) : Nat :=
  (ms.filter (fun m => startPositionVal m == some (i : ℚ))).length

/-- `posLabels[i]` for the six discrete buckets. -/
def posLabel (i : Nat) : String :=
  match i with
  | 0 => "Left"
  | 1 => "Center"
  | 2 => "Right"
  | 3 => "Pos 3"
  | 4 => "Pos 4"
  | _ => "Pos 5"

/-- Loop body of `calculateStartPositions`: push bucket `i` when its
rounded percentage is positive. -/
def spStep (ms : List ScoutingEntry) (matchCount : Nat)
    (result : List (String × Nat)) (i : Nat) : List (String × Nat) :=
  let count := countPos ms i
  let percentage := percent count matchCount
  if 0 < percentage then result ++ [(posLabel i, percentage)] else result

/-- `calculateStartPositions`: for buckets 0–5, compute the rounded
percentage of matches started there and list only buckets with a positive
percentage. -/
def calculateStartPositions (ms : List ScoutingEntry) (matchCount : Nat) :
    List (String × Nat) :=
  (List.range 6).foldl (spStep ms matchCount) []

/-- `overall` phase of a team-stats record; the 2026-specific fields are
absent (`undefined`) in the empty-stats object and are `Option`s here. -/
structure OverallStats where
  avgTotalPoints : ℚ
  totalPiecesScored : ℚ
  avgGamePiece1 : ℚ
  avgGamePiece2 : ℚ
  avgFuelScored : Option ℚ := none
  avgFuelPassed : Option ℚ := none
  deriving DecidableEq, Repr

/-- `auto` phase of a team-stats record. -/
structure AutoStats where
  avgPoints : ℚ
  avgGamePiece1 : ℚ
  avgGamePiece2 : ℚ
  mobilityRate : Nat
  startPositions : List (String × Nat)
  autoClimbRate : Option Nat := none
  avgFuelScored : Option ℚ := none
  avgTrenchStuck : Option ℚ := none
  avgBumpStuck : Option ℚ := none
  avgTrenchStuckDuration : Option ℚ := none
  avgBumpStuckDuration : Option ℚ := none
  deriving DecidableEq, Repr

/-- `teleop` phase of a team-stats record. -/
structure TeleopStats where
  avgPoints : ℚ
  avgGamePiece1 : ℚ
  avgGamePiece2 : ℚ
  avgFuelScored : Option ℚ := none
  avgFuelPassed : Option ℚ := none
  defenseRate : Option Nat := none
  totalDefenseActions : Option ℚ := none
  avgSteals : Option ℚ := none
  avgTrenchStuck : Option ℚ := none
  avgBumpStuck : Option ℚ := none
  avgTrenchStuckDuration : Option ℚ := none
  avgBumpStuckDuration : Option ℚ := none
  deriving DecidableEq, Repr

/-- `endgame` phase of a team-stats record. -/
structure EndgameStats where
  avgPoints : ℚ
  climbRate : Nat
  parkRate : Nat
  shallowClimbRate : Nat
  deepClimbRate : Nat
  climbL1Rate : Option Nat := none
  climbL2Rate : Option Nat := none
  climbL3Rate : Option Nat := none
  climbSuccessRate : Option Nat := none
  climbFailedRate : Option Nat := none
  option1Rate : Option Nat := none
  option2Rate : Option Nat := none
  option3Rate : Option Nat := none
  option4Rate : Option Nat := none
  option5Rate : Option Nat := none
  toggle1Rate : Option Nat := none
  toggle2Rate : Option Nat := none
  deriving DecidableEq, Repr

/-- Raw per-match point arrays for distribution charts. -/
structure RawValues where
  totalPoints : List ℚ
  autoPoints : List ℚ
  teleopPoints : List ℚ
  endgamePoints : List ℚ
  deriving DecidableEq, Repr

/-- A complete team-stats record. -/
structure TeamStats where
  matchCount : Nat
  totalPoints : ℚ
  autoPoints : ℚ
  teleopPoints : ℚ
  endgamePoints : ℚ
  overall : OverallStats
  auto : AutoStats
  teleop : TeleopStats
  endgame : EndgameStats
  rawValues : RawValues
  deriving DecidableEq, Repr

/-- `getEmptyStats()`: the well-formed all-zero record returned for a team
with no match entries. -/
def getEmptyStats : TeamStats :=
  { matchCount := 0
    totalPoints := 0
    autoPoints := 0
    teleopPoints := 0
    endgamePoints := 0
    overall :=
      { avgTotalPoints := 0, totalPiecesScored := 0, avgGamePiece1 := 0,
        avgGamePiece2 := 0 }
    auto :=
      { avgPoints := 0, avgGamePiece1 := 0, avgGamePiece2 := 0,
        mobilityRate := 0, startPositions := [] }
    teleop := { avgPoints := 0, avgGamePiece1 := 0, avgGamePiece2 := 0 }
    endgame :=
      { avgPoints := 0, climbRate := 0, parkRate := 0, shallowClimbRate := 0,
        deepClimbRate := 0 }
    rawValues :=
      { totalPoints := [], autoPoints := [], teleopPoints := [],
        endgamePoints := [] } }

/-- `calculateTeamStats(teamMatches)`: all statistics for one team from its
match entries; empty input short-circuits to `getEmptyStats`. The scoring
side is driven by the season schema `S` (the `scoringCalculations`
import). -/
def calculateTeamStats (S : GameSchema) (teamMatches : List ScoutingEntry) :
    TeamStats :=
  if teamMatches.length = 0 then getEmptyStats
  else
    let matchCount := teamMatches.length
    let mc : ℚ := matchCount
    let totalAutoPoints := sumBy teamMatches (calculateAutoPoints S)
    let totalTeleopPoints := sumBy teamMatches (calculateTeleopPoints S)
    let totalEndgamePoints := sumBy teamMatches (calculateEndgamePoints S)
    let totalPoints := totalAutoPoints + totalTeleopPoints + totalEndgamePoints
    let autoFuelTotal := sumBy teamMatches (fun m => numVal m.gameData.auto "fuelScoredCount")
    let autoFuelPassedTotal := sumBy teamMatches (fun m => numVal m.gameData.auto "fuelPassedCount")
    let teleopFuelTotal := sumBy teamMatches (fun m => numVal m.gameData.teleop "fuelScoredCount")
    let teleopFuelPassedTotal := sumBy teamMatches (fun m => numVal m.gameData.teleop "fuelPassedCount")
    let totalFuelScoredQ := autoFuelTotal + teleopFuelTotal
    let totalFuelPassedQ := autoFuelPassedTotal + teleopFuelPassedTotal
    let totalPieces := totalFuelScoredQ
    let autoClimbCount := (teamMatches.filter (fun m => boolVal m.gameData.auto "autoClimbL1")).length
    let startPositions := calculateStartPositions teamMatches matchCount
    let autoTrenchStuckTotal := sumBy teamMatches (fun m => numVal m.gameData.auto "trenchStuckCount")
    let autoBumpStuckTotal := sumBy teamMatches (fun m => numVal m.gameData.auto "bumpStuckCount")
    let autoTrenchStuckDurationTotal := sumBy teamMatches (fun m => numVal m.gameData.auto "trenchStuckDuration")
    let autoBumpStuckDurationTotal := sumBy teamMatches (fun m => numVal m.gameData.auto "bumpStuckDuration")
    let climbL1Count := (teamMatches.filter (fun m => boolVal m.gameData.endgame "climbL1")).length
    let climbL2Count := (teamMatches.filter (fun m => boolVal m.gameData.endgame "climbL2")).length
    let climbL3Count := (teamMatches.filter (fun m => boolVal m.gameData.endgame "climbL3")).length
    let climbFailedCount := (teamMatches.filter (fun m => boolVal m.gameData.endgame "climbFailed")).length
    let climbSuccessCount := climbL1Count + climbL2Count + climbL3Count
    let defenseCount := (teamMatches.filter (fun m => boolVal m.gameData.teleop "playedDefense")).length
    let defenseAllianceTotal := sumBy teamMatches (fun m => numVal m.gameData.teleop "defenseAllianceCount")
    let defenseNeutralTotal := sumBy teamMatches (fun m => numVal m.gameData.teleop "defenseNeutralCount")
    let defenseOpponentTotal := sumBy teamMatches (fun m => numVal m.gameData.teleop "defenseOpponentCount")
    let totalDefenseActions := defenseAllianceTotal + defenseNeutralTotal + defenseOpponentTotal
    let stealTotal := sumBy teamMatches (fun m => numVal m.gameData.teleop "stealCount")
    let trenchStuckTotal := sumBy teamMatches (fun m => numVal m.gameData.teleop "trenchStuckCount")
    let bumpStuckTotal := sumBy teamMatches (fun m => numVal m.gameData.teleop "bumpStuckCount")
    let trenchStuckDurationTotal := sumBy teamMatches (fun m => numVal m.gameData.teleop "trenchStuckDuration")
    let bumpStuckDurationTotal := sumBy teamMatches (fun m => numVal m.gameData.teleop "bumpStuckDuration")
    let rawValues : RawValues :=
      { totalPoints := teamMatches.map (calculateTotalPoints S)
        autoPoints := teamMatches.map (calculateAutoPoints S)
        teleopPoints := teamMatches.map (calculateTeleopPoints S)
        endgamePoints := teamMatches.map (calculateEndgamePoints S) }
    { matchCount := matchCount
      totalPoints := round (totalPoints / mc)
      autoPoints := round (totalAutoPoints / mc)
      teleopPoints := round (totalTeleopPoints / mc)
      endgamePoints := round (totalEndgamePoints / mc)
      overall :=
        { avgTotalPoints := round (totalPoints / mc)
          totalPiecesScored := round (totalPieces / mc)
          avgGamePiece1 := round (totalFuelScoredQ / mc)
          avgGamePiece2 := round (totalFuelPassedQ / mc)
          avgFuelScored := some (round (totalFuelScoredQ / mc))
          avgFuelPassed := some (round (totalFuelPassedQ / mc)) }
      auto :=
        { avgPoints := round (totalAutoPoints / mc)
          avgGamePiece1 := round (autoFuelTotal / mc)
          avgGamePiece2 := round (autoFuelPassedTotal / mc)
          mobilityRate := 0
          autoClimbRate := some (percent autoClimbCount matchCount)
          avgFuelScored := some (round (autoFuelTotal / mc))
          startPositions := startPositions
          avgTrenchStuck := some (round (autoTrenchStuckTotal / mc))
          avgBumpStuck := some (round (autoBumpStuckTotal / mc))
          avgTrenchStuckDuration := some (round (autoTrenchStuckDurationTotal / mc / 1000) )
          avgBumpStuckDuration := some (round (autoBumpStuckDurationTotal / mc / 1000) ) }
      teleop :=
        { avgPoints := round (totalTeleopPoints / mc)
          avgGamePiece1 := round (teleopFuelTotal / mc)
          avgGamePiece2 := round (teleopFuelPassedTotal / mc)
          avgFuelScored := some (round (teleopFuelTotal / mc))
          avgFuelPassed := some (round (teleopFuelPassedTotal / mc))
          defenseRate := some (percent defenseCount matchCount)
          totalDefenseActions := some (round (totalDefenseActions / mc))
          avgSteals := some (round (stealTotal / mc))
          avgTrenchStuck := some (round (trenchStuckTotal / mc))
          avgBumpStuck := some (round (bumpStuckTotal / mc))
          avgTrenchStuckDuration := some (round (trenchStuckDurationTotal / mc / 1000) )
          avgBumpStuckDuration := some (round (bumpStuckDurationTotal / mc / 1000) ) }
      endgame :=
        { avgPoints := round (totalEndgamePoints / mc)
          climbL1Rate := some (percent climbL1Count matchCount)
          climbL2Rate := some (percent climbL2Count matchCount)
          climbL3Rate := some (percent climbL3Count matchCount)
          climbSuccessRate := some (percent climbSuccessCount matchCount)
          climbFailedRate := some (percent climbFailedCount matchCount)
          climbRate := percent climbSuccessCount matchCount
          parkRate := 0
          shallowClimbRate := percent climbL1Count matchCount
          deepClimbRate := percent climbL3Count matchCount
          option1Rate := some (percent climbL1Count matchCount)
          option2Rate := some (percent climbL2Count matchCount)
          option3Rate := some (percent climbL3Count matchCount)
          option4Rate := some 0
          option5Rate := some 0
          toggle1Rate := some (percent climbFailedCount matchCount)
          toggle2Rate := some 0 }
      rawValues := rawValues }

/-- Claim C7: aggregating an empty list of match entries returns the
well-formed all-zero record — `matchCount` 0 and every rate and average
field of the returned record equal to 0 (with empty position and raw-value
lists) — rather than raising an error (the function is total). -/
theorem calculateTeamStats_empty :
    ∀ S : GameSchema,
      calculateTeamStats S [] = getEmptyStats ∧
      getEmptyStats.matchCount = 0 ∧
      getEmptyStats.totalPoints = 0 ∧
      getEmptyStats.autoPoints = 0 ∧
      getEmptyStats.teleopPoints = 0 ∧
      getEmptyStats.endgamePoints = 0 ∧
      getEmptyStats.overall.avgTotalPoints = 0 ∧
      getEmptyStats.overall.totalPiecesScored = 0 ∧
      getEmptyStats.overall.avgGamePiece1 = 0 ∧
      getEmptyStats.overall.avgGamePiece2 = 0 ∧
      getEmptyStats.auto.avgPoints = 0 ∧
      getEmptyStats.auto.avgGamePiece1 = 0 ∧
      getEmptyStats.auto.avgGamePiece2 = 0 ∧
      getEmptyStats.auto.mobilityRate = 0 ∧
      getEmptyStats.auto.startPositions = [] ∧
      getEmptyStats.teleop.avgPoints = 0 ∧
      getEmptyStats.teleop.avgGamePiece1 = 0 ∧
      getEmptyStats.teleop.avgGamePiece2 = 0 ∧
      getEmptyStats.endgame.avgPoints = 0 ∧
      getEmptyStats.endgame.climbRate = 0 ∧
      getEmptyStats.endgame.parkRate = 0 ∧
      getEmptyStats.endgame.shallowClimbRate = 0 ∧
      getEmptyStats.endgame.deepClimbRate = 0 ∧
      getEmptyStats.rawValues.totalPoints = [] ∧
      getEmptyStats.rawValues.autoPoints = [] ∧
      getEmptyStats.rawValues.teleopPoints = [] ∧
      getEmptyStats.rawValues.endgamePoints = [] :=
  fun S => ⟨rfl, by decide⟩

/-! ### Start-position histogram bounds (C8) -/

theorem sum_map_add_nat {α : Type} (l : List α) (f g : α → Nat) :
    (l.map (fun x => f x + g x)).sum = (l.map f).sum + (l.map g).sum := by
  induction l <;> simp_all <;> omega

theorem sum_map_mul_left_nat {α : Type} (l : List α) (b : Nat) (f : α → Nat) :
    (l.map (fun x => b * f x)).sum = b * (l.map f).sum := by
  induction l <;> simp_all [Nat.mul_add]

theorem countPos_cons (m : ScoutingEntry) (tl : List ScoutingEntry) (i : Nat) :
    countPos (m :: tl) i =
      (if startPositionVal m == some (i : ℚ) then 1 else 0) + countPos tl i := by
  simp only [countPos, List.filter_cons]
  split <;> simp [Nat.add_comm]

theorem bucket_indicator_le_one (o : Option ℚ) :
    ((List.range 6).map (fun (i : Nat) => if o == some (i : ℚ) then 1 else 0)).sum ≤ 1 := by
  rcases o with _ | q
  · simp
  · have h6 : List.range 6 = [0, 1, 2, 3, 4, 5] := rfl
    rw [h6]
    simp only [List.map_cons, List.map_nil, List.sum_cons, List.sum_nil,
      beq_iff_eq, Option.some.injEq, Nat.cast_zero, Nat.cast_one, Nat.cast_ofNat]
    by_cases h0 : q = (0 : ℚ)
    · subst h0; norm_num
    · by_cases h1 : q = (1 : ℚ)
      · subst h1; norm_num
      · by_cases h2 : q = (2 : ℚ)
        · subst h2; norm_num
        · by_cases h3 : q = (3 : ℚ)
          · subst h3; norm_num
          · by_cases h4 : q = (4 : ℚ)
            · subst h4; norm_num
            · by_cases h5 : q = (5 : ℚ)
              · subst h5; norm_num
              · simp [h0, h1, h2, h3, h4, h5]

theorem countPos_total_le (ms : List ScoutingEntry) :
    ((List.range 6).map (countPos ms)).sum ≤ ms.length := by
  induction ms with
  | nil => decide
  | cons m tl ih =>
      have hmap : (List.range 6).map (countPos (m :: tl)) =
          (List.range 6).map
            (fun (i : Nat) => (if startPositionVal m == some (i : ℚ) then 1 else 0) +
              countPos tl i) :=
        List.map_congr_left (fun i _ => countPos_cons m tl i)
      rw [hmap, sum_map_add_nat]
      have h1 := bucket_indicator_le_one (startPositionVal m)
      have ih2 : ((List.range 6).map (fun i => countPos tl i)).sum ≤ tl.length := ih
      simp only [List.length_cons]
      omega

theorem percent_mul_le (c t : Nat) (ht : 0 < t) :
    2 * t * percent c t ≤ 200 * c + t := by
  simp only [percent, if_pos ht]
  calc 2 * t * ((200 * c + t) / (2 * t)) = (200 * c + t) / (2 * t) * (2 * t) := by ring
    _ ≤ 200 * c + t := Nat.div_mul_le_self _ _

theorem spStep_foldl_sum_le (ms : List ScoutingEntry) (t : Nat)
    (l : List Nat) (acc : List (String × Nat)) :
    (((l.foldl (spStep ms t) acc).map Prod.snd).sum : Nat) ≤
      ((acc.map Prod.snd).sum) + (l.map (fun i => percent (countPos ms i) t)).sum := by
  induction l generalizing acc with
  | nil => simp
  | cons i l ih =>
      simp only [List.foldl_cons, List.map_cons, List.sum_cons]
      refine le_trans (ih (spStep ms t acc i)) ?_
      have hstep : ((spStep ms t acc i).map Prod.snd).sum ≤
          (acc.map Prod.snd).sum + percent (countPos ms i) t := by
        simp only [spStep]
        split <;> simp
      omega

theorem spStep_foldl_mem (ms : List ScoutingEntry) (t : Nat)
    (l : List Nat) (acc : List (String × Nat)) (pr : String × Nat) :
    pr ∈ l.foldl (spStep ms t) acc →
      pr ∈ acc ∨ ∃ i, i ∈ l ∧ 0 < percent (countPos ms i) t ∧
        pr = (posLabel i, percent (countPos ms i) t) := by
  induction l generalizing acc with
  | nil => intro h; exact Or.inl h
  | cons i l ih =>
      intro h
      rcases ih (spStep ms t acc i) h with hacc | ⟨j, hj, hjpos, hjeq⟩
      · simp only [spStep] at hacc
        split at hacc
        · rcases List.mem_append.mp hacc with h1 | h2
          · exact Or.inl h1
          · refine Or.inr ⟨i, by simp, ?_, ?_⟩
            · assumption
            · simpa using h2
        · exact Or.inl hacc
      · exact Or.inr ⟨j, by simp [hj], hjpos, hjeq⟩

theorem startPositions_sum_le_103 (ms : List ScoutingEntry) :
    (((calculateStartPositions ms ms.length).map Prod.snd).sum : Nat) ≤ 103 := by
  have hsum := spStep_foldl_sum_le ms ms.length (List.range 6) []
  simp only [List.map_nil, List.sum_nil, Nat.zero_add] at hsum
  rw [calculateStartPositions]
  refine le_trans hsum ?_
  rcases Nat.eq_zero_or_pos ms.length with h0 | hpos
  · simp [percent, h0]
  · -- 2·t · Σ percent ≤ 200 · Σ count + 6·t ≤ 206·t, hence Σ percent ≤ 103
    have hmul : 2 * ms.length *
        ((List.range 6).map (fun i => percent (countPos ms i) ms.length)).sum ≤
          206 * ms.length := by
      rw [← sum_map_mul_left_nat]
      have hpt : ((List.range 6).map
          (fun i => 2 * ms.length * percent (countPos ms i) ms.length)).sum ≤
            ((List.range 6).map (fun i => 200 * countPos ms i + ms.length)).sum :=
        List.sum_le_sum (fun i _ => percent_mul_le (countPos ms i) ms.length hpos)
      refine le_trans hpt ?_
      rw [sum_map_add_nat]
      have h200 : ((List.range 6).map (fun i => 200 * countPos ms i)).sum =
          200 * ((List.range 6).map (countPos ms)).sum := by
        rw [← sum_map_mul_left_nat]
      have hcnt := countPos_total_le ms
      have h6 : ((List.range 6).map (fun _ => ms.length)).sum = 6 * ms.length := by
        simp [List.map_const]
        ring
      rw [h200, h6]
      have hcnt2 : ((List.range 6).map (fun i => countPos ms i)).sum ≤ ms.length := hcnt
      omega
    by_contra hgt
    push_neg at hgt
    have hge : 104 ≤
        ((List.range 6).map (fun i => percent (countPos ms i) ms.length)).sum := hgt
    have hstep : 2 * ms.length * 104 ≤
        2 * ms.length *
          ((List.range 6).map (fun i => percent (countPos ms i) ms.length)).sum :=
      Nat.mul_le_mul_left _ hge
    have h208 : 208 * ms.length ≤ 206 * ms.length := by
      calc 208 * ms.length = 2 * ms.length * 104 := by ring
        _ ≤ 2 * ms.length *
            ((List.range 6).map (fun i => percent (countPos ms i) ms.length)).sum := hstep
        _ ≤ 206 * ms.length := hmul
    omega

/-- Counterexample to claim C8 as stated: six matches evenly spread over
the six start positions give each bucket `Math.round(100/6) = 17`%, so the
bucket percentages sum to 102, which exceeds 100. -/
theorem startPositions_sum_exceeds_100 :
    100 <
      (((calculateStartPositions
        [⟨{ auto := [("startPosition", JVal.num 0)] }⟩,
         ⟨{ auto := [("startPosition", JVal.num 1)] }⟩,
         ⟨{ auto := [("startPosition", JVal.num 2)] }⟩,
         ⟨{ auto := [("startPosition", JVal.num 3)] }⟩,
         ⟨{ auto := [("startPosition", JVal.num 4)] }⟩,
         ⟨{ auto := [("startPosition", JVal.num 5)] }⟩] 6).map Prod.snd).sum : Nat) := by
  decide

/-- Claim C8 (amended): every entry of the start-position histogram is a
bucket 0–5 carrying the half-up rounded percentage of matches started in
that bucket (zero-percentage buckets are omitted), and the percentages sum
to at most 103 — rounding can push the sum above 100, but never by more
than 3. -/
theorem startPositions_rounded_and_bounded (ms : List ScoutingEntry) :
    (∀ pr ∈ calculateStartPositions ms ms.length,
      ∃ i, i < 6 ∧ 0 < percent (countPos ms i) ms.length ∧
        pr = (posLabel i, percent (countPos ms i) ms.length)) ∧
    (((calculateStartPositions ms ms.length).map Prod.snd).sum : Nat) ≤ 103 := by
  refine ⟨?_, startPositions_sum_le_103 ms⟩
  intro pr hpr
  rcases spStep_foldl_mem ms ms.length (List.range 6) [] pr hpr with h | ⟨i, hi, hip, hieq⟩
  · simp at h
  · exact ⟨i, List.mem_range.mp hi, hip, hieq⟩

/-- Witness for the amended C8 at the six-way spread: the "Left" bucket
really appears with its rounded percentage 17, and the listed percentages
sum to at most 103. -/
theorem startPositions_rounded_and_bounded_witness :
    (∃ i, i < 6 ∧ 0 < percent (countPos
        [⟨{ auto := [("startPosition", JVal.num 0)] }⟩,
         ⟨{ auto := [("startPosition", JVal.num 1)] }⟩,
         ⟨{ auto := [("startPosition", JVal.num 2)] }⟩,
         ⟨{ auto := [("startPosition", JVal.num 3)] }⟩,
         ⟨{ auto := [("startPosition", JVal.num 4)] }⟩,
         ⟨{ auto := [("startPosition", JVal.num 5)] }⟩] i) 6 ∧
      ("Left", 17) = (posLabel i, percent (countPos
        [⟨{ auto := [("startPosition", JVal.num 0)] }⟩,
         ⟨{ auto := [("startPosition", JVal.num 1)] }⟩,
         ⟨{ auto := [("startPosition", JVal.num 2)] }⟩,
         ⟨{ auto := [("startPosition", JVal.num 3)] }⟩,
         ⟨{ auto := [("startPosition", JVal.num 4)] }⟩,
         ⟨{ auto := [("startPosition", JVal.num 5)] }⟩] i) 6)) ∧
    (((calculateStartPositions
        [⟨{ auto := [("startPosition", JVal.num 0)] }⟩,
         ⟨{ auto := [("startPosition", JVal.num 1)] }⟩,
         ⟨{ auto := [("startPosition", JVal.num 2)] }⟩,
         ⟨{ auto := [("startPosition", JVal.num 3)] }⟩,
         ⟨{ auto := [("startPosition", JVal.num 4)] }⟩,
         ⟨{ auto := [("startPosition", JVal.num 5)] }⟩] 6).map Prod.snd).sum : Nat) ≤ 103 :=
  ⟨(startPositions_rounded_and_bounded _).1 ("Left", 17) (by decide),
   (startPositions_rounded_and_bounded _).2⟩

/-! ## Alliance roster validation (`validateTeamsInMatch`) -/

/-- One of the two alliance colors. -/
inductive AllianceColor
  | red
  | blue
  deriving DecidableEq, Repr

/-- The other alliance (`alliance === 'red' ? 'blue' : 'red'`). -/
def oppositeAlliance : AllianceColor → AllianceColor
  | .red => .blue
  | .blue => .red

/-- Display name of an alliance color, as interpolated into the error
message. -/
def allianceName : AllianceColor → String
  | .red => "red"
  | .blue => "blue"

/-- The authoritative match record: `tbaMatch.alliances[color].team_keys`
for both colors. -/
structure TBAMatch where
  redTeamKeys : List String
  blueTeamKeys : List String
  deriving DecidableEq, Repr

/-- `tbaMatch.alliances[alliance].team_keys`. -/
def teamKeysOf (m : TBAMatch) : AllianceColor → List String
  | .red => m.redTeamKeys
  | .blue => m.blueTeamKeys

/-- A scouted entry as consumed by the roster validation (only the team
number is read). -/
structure AllianceEntry where
  teamNumber : Nat
  deriving DecidableEq, Repr

/-- The advisory per-team result of the roster validation. -/
structure TeamValidationResult where
  teamNumber : Nat
  wasInMatch : Bool
  expectedAlliance : AllianceColor
  actualAlliance : Option AllianceColor := none
  error : Option String := none
  deriving DecidableEq, Repr

/-- The `` `frc${entry.teamNumber}` `` key. -/
def teamKeyOf (n : Nat) : String := "frc" ++ toString n

/-- Body of the `allianceEntries.map` in `validateTeamsInMatch`: classify
one scouted entry against the authoritative rosters. -/
def validateOneTeam (tbaMatch : TBAMatch) (alliance : AllianceColor)
    (entry : AllianceEntry) : TeamValidationResult :=
  let teamKey := teamKeyOf entry.teamNumber
  let wasInMatch := (teamKeysOf tbaMatch alliance).contains teamKey
  if !wasInMatch then
    let oa := oppositeAlliance alliance
    let inOpposite := (teamKeysOf tbaMatch oa).contains teamKey
    if inOpposite then
      { teamNumber := entry.teamNumber
        wasInMatch := true
        expectedAlliance := alliance
        actualAlliance := some oa
        error := some ("Team " ++ toString entry.teamNumber ++ " was in " ++
          allianceName oa ++ " alliance, not " ++ allianceName alliance) }
    else
      { teamNumber := entry.teamNumber
        wasInMatch := false
        expectedAlliance := alliance
        error := some ("Team " ++ toString entry.teamNumber ++
          " was not in this match") }
  else
    { teamNumber := entry.teamNumber
      wasInMatch := true
      expectedAlliance := alliance
      actualAlliance := some alliance }

/-- `validateTeamsInMatch(allianceEntries, tbaMatch, alliance)`. -/
def validateTeamsInMatch (allianceEntries : List AllianceEntry)
    (tbaMatch : TBAMatch) (alliance : AllianceColor) : List TeamValidationResult :=
  allianceEntries.map (validateOneTeam tbaMatch alliance)

/-- Claim C9: for each scouted entry, roster validation yields exactly one
result (position `i` of the output comes from position `i` of the input
alone, so no entry aborts validation of the rest); a team present in the
expected roster is reported in-match with no error; a team absent from the
expected roster but present in the opposing roster gets a wrong-alliance
error naming the actual (opposing) alliance; a team absent from both is
reported `wasInMatch = false` with a not-in-match error. -/
theorem validateTeamsInMatch_classifies
    (allianceEntries : List AllianceEntry) (tbaMatch : TBAMatch)
    (alliance : AllianceColor) :
    (validateTeamsInMatch allianceEntries tbaMatch alliance).length =
        allianceEntries.length ∧
    (∀ i : Nat, (validateTeamsInMatch allianceEntries tbaMatch alliance).get? i =
        (allianceEntries.get? i).map (validateOneTeam tbaMatch alliance)) ∧
    (∀ entry : AllianceEntry,
      (teamKeyOf entry.teamNumber ∈ teamKeysOf tbaMatch alliance →
        (validateOneTeam tbaMatch alliance entry).wasInMatch = true ∧
        (validateOneTeam tbaMatch alliance entry).error = none ∧
        (validateOneTeam tbaMatch alliance entry).actualAlliance = some alliance) ∧
      (teamKeyOf entry.teamNumber ∉ teamKeysOf tbaMatch alliance →
        teamKeyOf entry.teamNumber ∈ teamKeysOf tbaMatch (oppositeAlliance alliance) →
        (validateOneTeam tbaMatch alliance entry).actualAlliance =
            some (oppositeAlliance alliance) ∧
        (validateOneTeam tbaMatch alliance entry).error =
          some ("Team " ++ toString entry.teamNumber ++ " was in " ++
            allianceName (oppositeAlliance alliance) ++ " alliance, not " ++
            allianceName alliance)) ∧
      (teamKeyOf entry.teamNumber ∉ teamKeysOf tbaMatch alliance →
        teamKeyOf entry.teamNumber ∉ teamKeysOf tbaMatch (oppositeAlliance alliance) →
        (validateOneTeam tbaMatch alliance entry).wasInMatch = false ∧
        (validateOneTeam tbaMatch alliance entry).error =
          some ("Team " ++ toString entry.teamNumber ++ " was not in this match"))) := by
  refine ⟨by simp [validateTeamsInMatch], ?_, ?_⟩
  · intro i
    simp [validateTeamsInMatch, List.get?_map]
  · intro entry
    refine ⟨?_, ?_, ?_⟩
    · intro hin
      simp [validateOneTeam, hin]
    · intro hout hopp
      simp [validateOneTeam, hout, hopp]
    · intro hout hopp
      simp [validateOneTeam, hout, hopp]

/-- Witness for C9 on a concrete match: scouting red-alliance entries 1,
2 and 9 against red roster {frc1, frc3} and blue roster {frc2}: team 1 is
in-match with no error, team 2 gets the wrong-alliance error naming blue,
and team 9 is reported not in the match; three entries give three
results. -/
theorem validateTeamsInMatch_classifies_witness :
    (validateTeamsInMatch [⟨1⟩, ⟨2⟩, ⟨9⟩]
        { redTeamKeys := ["frc1", "frc3"], blueTeamKeys := ["frc2"] }
        AllianceColor.red).length = 3 ∧
    (validateTeamsInMatch [⟨1⟩, ⟨2⟩, ⟨9⟩]
        { redTeamKeys := ["frc1", "frc3"], blueTeamKeys := ["frc2"] }
        AllianceColor.red).get? 1 =
      some (validateOneTeam
        { redTeamKeys := ["frc1", "frc3"], blueTeamKeys := ["frc2"] }
        AllianceColor.red ⟨2⟩) ∧
    (validateOneTeam { redTeamKeys := ["frc1", "frc3"], blueTeamKeys := ["frc2"] }
        AllianceColor.red ⟨1⟩).wasInMatch = true ∧
    (validateOneTeam { redTeamKeys := ["frc1", "frc3"], blueTeamKeys := ["frc2"] }
        AllianceColor.red ⟨1⟩).error = none ∧
    (validateOneTeam { redTeamKeys := ["frc1", "frc3"], blueTeamKeys := ["frc2"] }
        AllianceColor.red ⟨2⟩).error =
      some "Team 2 was in blue alliance, not red" ∧
    (validateOneTeam { redTeamKeys := ["frc1", "frc3"], blueTeamKeys := ["frc2"] }
        AllianceColor.red ⟨9⟩).wasInMatch = false := by
  have h := validateTeamsInMatch_classifies [⟨1⟩, ⟨2⟩, ⟨9⟩]
    { redTeamKeys := ["frc1", "frc3"], blueTeamKeys := ["frc2"] } AllianceColor.red
  refine ⟨h.1, h.2.1 1, ((h.2.2 ⟨1⟩).1 (by decide)).1, ((h.2.2 ⟨1⟩).1 (by decide)).2.1,
    ?_, ((h.2.2 ⟨9⟩).2.2 (by decide) (by decide)).1⟩
  have h2 := ((h.2.2 ⟨2⟩).2.1 (by decide) (by decide)).2
  exact h2

/-! ## Teleop tracker (`TeleopFieldMap.tsx`) -/

/-- JS truthiness of a `number | null` value: a non-zero number. -/
def jsTruthy (o : Option Int) : Bool :=
  match o with
  | some t => t != 0
  | none => false

/-- The component state of the teleop field map that the handlers read and
write: committed actions, the pending waypoint with its fuel accumulation,
the three selection-mode flags, the climb selector and the broken-down
interval. -/
structure TeleopState where
  actions : List PathWaypoint := []
  pendingWaypoint : Option PathWaypoint := none
  accumulatedFuel : Int := 0
  fuelHistory : List Int := []
  isSelectingScore : Bool := false
  isSelectingPass : Bool := false
  isSelectingCollect : Bool := false
  climbLevel : Option String := none
  climbResult : Option String := some "success"
  showPostClimbProceed : Bool := false
  brokenDownStart : Option Int := none
  totalBrokenDownTime : Int := 0
  deriving DecidableEq, Repr

/-- Teleop `handleInteractionEnd(pos, shot_action, isPassing?, isCollecting?)`:
in score mode, stash a score pending waypoint (placeholder `fuelDelta: -8`,
label `'...'`) and reset the fuel accumulation; in pass mode, stash a pass
pending waypoint the same way; in collect mode, immediately append a
`collect` action with `fuelDelta 8`. `newId` and `now` stand for
`generateId()` and `Date.now()`. -/
def teleopHandleInteractionEnd (newId : String) (now : Int) (pos : ℚ × ℚ)
    (shotAction : String) (isPassing isCollecting : Bool) (s : TeleopState) :
    TeleopState :=
  if s.isSelectingScore then
    { s with
      pendingWaypoint := some
        { id := newId, type := .score, action := shotAction, position := some pos,
          fuelDelta := some (-8), amountLabel := some "...", timestamp := now }
      accumulatedFuel := 0
      fuelHistory := []
      isSelectingScore := false }
  else if s.isSelectingPass || isPassing then
    { s with
      pendingWaypoint := some
        { id := newId, type := .pass, action := "partner", position := some pos,
          fuelDelta := some 0, amountLabel := some "...", timestamp := now }
      accumulatedFuel := 0
      fuelHistory := []
      isSelectingPass := false }
  else if s.isSelectingCollect || isCollecting then
    { s with
      actions := s.actions ++
        [{ id := newId, type := .collect, action := "field", position := some pos,
           fuelDelta := some 8, timestamp := now }]
      isSelectingCollect := false }
  else s

/-- Teleop `handleFuelConfirm`: no-op without a pending waypoint or with
zero accumulated fuel; otherwise finalize `fuelDelta` —
`-accumulatedFuel` for score, `accumulatedFuel` otherwise (pass) — and
append to the action log, clearing the pending state. -/
def teleopHandleFuelConfirm (s : TeleopState) : TeleopState :=
  match s.pendingWaypoint with
  | none => s
  | some w =>
      if s.accumulatedFuel = 0 then s
      else
        let w2 := { w with
          fuelDelta := some (if w.type == PathActionType.score then
            -s.accumulatedFuel else s.accumulatedFuel)
          amountLabel := some (toString s.accumulatedFuel) }
        { s with
          actions := s.actions ++ [w2]
          pendingWaypoint := none
          accumulatedFuel := 0
          fuelHistory := [] }

/-- Teleop climb `onConfirm`: only when both a level and a result are
selected, append the finalized climb action and reset the selector. -/
def teleopClimbConfirm (s : TeleopState) : TeleopState :=
  match s.pendingWaypoint with
  | none => s
  | some w =>
      match s.climbLevel, s.climbResult with
      | some level, some result =>
          let w2 := { w with
            action := level
            amountLabel := some (level ++ " " ++
              (if result == "success" then "ok" else "fail"))
            climbLevel := some level
            climbResult := some result }
          { s with
            actions := s.actions ++ [w2]
            pendingWaypoint := none
            climbLevel := none
            climbResult := some "success"
            showPostClimbProceed := true }
      | _, _ => s

/-- `PendingWaypointPopup` confirm-button gate (`canConfirm`): a climb
needs a result — and, with level selection, also a level — while a
quantity action needs strictly positive accumulated fuel. -/
def canConfirm (isClimb climbWithLevels : Bool) (climbLevel : Option String)
    (climbResult : Option String) (accumulatedFuel : Int) : Bool :=
  if isClimb then
    if climbWithLevels then climbLevel.isSome && climbResult.isSome
    else climbResult.isSome
  else decide (0 < accumulatedFuel)

/-- Pressing the teleop confirm button: the popup renders with
`climbWithLevels = true` and disables the button unless `canConfirm`;
an enabled press runs the climb confirm for climb pendings and
`handleFuelConfirm` otherwise. -/
def teleopConfirmClick (s : TeleopState) : TeleopState :=
  match s.pendingWaypoint with
  | none => s
  | some w =>
      if canConfirm (w.type == PathActionType.climb) true s.climbLevel
          s.climbResult s.accumulatedFuel then
        if w.type == PathActionType.climb then teleopClimbConfirm s
        else teleopHandleFuelConfirm s
      else s

/-- Teleop `handleBrokenDownToggle`: close an open interval by adding its
elapsed time to the stored total, or open a new interval at `now`. -/
def teleopHandleBrokenDownToggle (now : Int) (s : TeleopState) : TeleopState :=
  if jsTruthy s.brokenDownStart then
    let start := s.brokenDownStart.getD 0
    { s with
      totalBrokenDownTime := s.totalBrokenDownTime + (now - start)
      brokenDownStart := none }
  else
    { s with brokenDownStart := some now }

/-- Teleop `handleUndoWrapper`: clear any active broken-down start marker
(without accumulating its elapsed time), then run the parent `onUndo` on
the action log. -/
def teleopHandleUndoWrapper (undoFn : List PathWaypoint → List PathWaypoint)
    (s : TeleopState) : TeleopState :=
  let s1 := if jsTruthy s.brokenDownStart then { s with brokenDownStart := none } else s
  { s1 with actions := undoFn s1.actions }

/-! ## Auto tracker (`AutoFieldMap`, part_006) -/

/-- The component state of the auto field map used by its handlers (the
auto climb popup has no level selection, only a result). -/
structure AutoState where
  actions : List PathWaypoint := []
  pendingWaypoint : Option PathWaypoint := none
  accumulatedFuel : Int := 0
  fuelHistory : List Int := []
  isSelectingScore : Bool := false
  isSelectingPass : Bool := false
  isSelectingCollect : Bool := false
  climbResult : Option String := none
  showPostClimbProceed : Bool := false
  brokenDownStart : Option Int := none
  totalBrokenDownTime : Int := 0
  deriving DecidableEq, Repr

/-- Auto `handleInteractionEnd`: identical branch structure to the teleop
one — score and pass stash a pending waypoint with reset fuel, collect
appends immediately with `fuelDelta 8`. -/
def autoHandleInteractionEnd (newId : String) (now : Int) (pos : ℚ × ℚ)
    (shotAction : String) (isPassing isCollecting : Bool) (s : AutoState) :
    AutoState :=
  if s.isSelectingScore then
    { s with
      pendingWaypoint := some
        { id := newId, type := .score, action := shotAction, position := some pos,
          fuelDelta := some (-8), amountLabel := some "...", timestamp := now }
      accumulatedFuel := 0
      fuelHistory := []
      isSelectingScore := false }
  else if s.isSelectingPass || isPassing then
    { s with
      pendingWaypoint := some
        { id := newId, type := .pass, action := "partner", position := some pos,
          fuelDelta := some 0, amountLabel := some "...", timestamp := now }
      accumulatedFuel := 0
      fuelHistory := []
      isSelectingPass := false }
  else if s.isSelectingCollect || isCollecting then
    { s with
      actions := s.actions ++
        [{ id := newId, type := .collect, action := "field", position := some pos,
           fuelDelta := some 8, timestamp := now }]
      isSelectingCollect := false }
  else s

/-- Auto popup `onConfirm`: finalize the pending waypoint — climb turns
into `climb-success`/`climb-fail` with `fuelDelta 0`, score and pass get
`fuelDelta = -accumulatedFuel`, anything else 0 — append it, clear the
accumulation, and pop the post-climb dialog after a climb. -/
def autoOnConfirm (s : AutoState) : AutoState :=
  match s.pendingWaypoint with
  | none => s
  | some w =>
      let isClimb := w.type == PathActionType.climb
      let action :=
        if isClimb then
          if s.climbResult == some "success" then "climb-success" else "climb-fail"
        else w.action
      let delta : Int :=
        if isClimb then 0
        else if w.type == PathActionType.score || w.type == PathActionType.pass then
          -s.accumulatedFuel
        else 0
      let label :=
        if isClimb then
          if s.climbResult == some "success" then "Succeeded" else "Failed"
        else if w.type == PathActionType.score then "+" ++ toString s.accumulatedFuel
        else "Pass (" ++ toString s.accumulatedFuel ++ ")"
      let w2 := { w with
        fuelDelta := some delta
        amountLabel := some label
        action := action }
      { s with
        actions := s.actions ++ [w2]
        pendingWaypoint := none
        accumulatedFuel := 0
        fuelHistory := []
        climbResult := none
        showPostClimbProceed := if w2.type == PathActionType.climb then true
          else s.showPostClimbProceed }

/-- Pressing the auto confirm button: the auto popup renders with
`climbWithLevels` defaulted to `false` and no `climbLevel` prop, and its
confirm button is disabled unless `canConfirm`. -/
def autoConfirmClick (s : AutoState) : AutoState :=
  match s.pendingWaypoint with
  | none => s
  | some w =>
      if canConfirm (w.type == PathActionType.climb) false none s.climbResult
          s.accumulatedFuel then
        autoOnConfirm s
      else s

/-- Auto `handleBrokenDownToggle` (same body as the teleop one). -/
def autoHandleBrokenDownToggle (now : Int) (s : AutoState) : AutoState :=
  if jsTruthy s.brokenDownStart then
    let start := s.brokenDownStart.getD 0
    { s with
      totalBrokenDownTime := s.totalBrokenDownTime + (now - start)
      brokenDownStart := none }
  else
    { s with brokenDownStart := some now }

/-- Auto `handleUndo` (same body as the teleop undo wrapper). -/
def autoHandleUndo (undoFn : List PathWaypoint → List PathWaypoint)
    (s : AutoState) : AutoState :=
  let s1 := if jsTruthy s.brokenDownStart then { s with brokenDownStart := none } else s
  { s1 with actions := undoFn s1.actions }

/-- Counterexample to claim C5 as stated: in collect selection mode the
interaction handler does not create a pending action awaiting
confirmation — it immediately appends a collect action to the log (shown
here on the teleop tracker from the empty log). -/
theorem collect_tap_commits_without_pending :
    (teleopHandleInteractionEnd "w1" 5 (0, 0) "collect_neutral" false true
        { isSelectingCollect := true }).pendingWaypoint = none ∧
    (teleopHandleInteractionEnd "w1" 5 (0, 0) "collect_neutral" false true
        { isSelectingCollect := true }).actions.length = 1 := by
  constructor <;> rfl

/-- Claim C5 (amended): in both trackers, tapping a valid target in score
or pass selection mode creates a pending action of that kind with zero
accumulated quantity awaiting confirmation and appends nothing to the
action log; tapping in collect selection mode instead immediately commits
a collect action with `fuelDelta 8` and creates no pending action. -/
theorem selection_tap_behavior (newId : String) (now : Int) (pos : ℚ × ℚ)
    (shotAction : String) (sT : TeleopState) (sA : AutoState) :
    (sT.isSelectingScore = true →
      ∃ w, (teleopHandleInteractionEnd newId now pos shotAction false false sT).pendingWaypoint = some w ∧
        w.type = PathActionType.score ∧
        (teleopHandleInteractionEnd newId now pos shotAction false false sT).accumulatedFuel = 0 ∧
        (teleopHandleInteractionEnd newId now pos shotAction false false sT).fuelHistory = [] ∧
        (teleopHandleInteractionEnd newId now pos shotAction false false sT).actions = sT.actions) ∧
    (sT.isSelectingScore = false → sT.isSelectingPass = true →
      ∃ w, (teleopHandleInteractionEnd newId now pos shotAction false false sT).pendingWaypoint = some w ∧
        w.type = PathActionType.pass ∧
        (teleopHandleInteractionEnd newId now pos shotAction false false sT).accumulatedFuel = 0 ∧
        (teleopHandleInteractionEnd newId now pos shotAction false false sT).fuelHistory = [] ∧
        (teleopHandleInteractionEnd newId now pos shotAction false false sT).actions = sT.actions) ∧
    (sT.isSelectingScore = false → sT.isSelectingPass = false →
      sT.isSelectingCollect = true →
      ∃ w, (teleopHandleInteractionEnd newId now pos shotAction false false sT).actions = sT.actions ++ [w] ∧
        w.type = PathActionType.collect ∧ w.fuelDelta = some 8 ∧
        (teleopHandleInteractionEnd newId now pos shotAction false false sT).pendingWaypoint = sT.pendingWaypoint) ∧
    (sA.isSelectingScore = true →
      ∃ w, (autoHandleInteractionEnd newId now pos shotAction false false sA).pendingWaypoint = some w ∧
        w.type = PathActionType.score ∧
        (autoHandleInteractionEnd newId now pos shotAction false false sA).accumulatedFuel = 0 ∧
        (autoHandleInteractionEnd newId now pos shotAction false false sA).fuelHistory = [] ∧
        (autoHandleInteractionEnd newId now pos shotAction false false sA).actions = sA.actions) ∧
    (sA.isSelectingScore = false → sA.isSelectingPass = true →
      ∃ w, (autoHandleInteractionEnd newId now pos shotAction false false sA).pendingWaypoint = some w ∧
        w.type = PathActionType.pass ∧
        (autoHandleInteractionEnd newId now pos shotAction false false sA).accumulatedFuel = 0 ∧
        (autoHandleInteractionEnd newId now pos shotAction false false sA).fuelHistory = [] ∧
        (autoHandleInteractionEnd newId now pos shotAction false false sA).actions = sA.actions) ∧
    (sA.isSelectingScore = false → sA.isSelectingPass = false →
      sA.isSelectingCollect = true →
      ∃ w, (autoHandleInteractionEnd newId now pos shotAction false false sA).actions = sA.actions ++ [w] ∧
        w.type = PathActionType.collect ∧ w.fuelDelta = some 8 ∧
        (autoHandleInteractionEnd newId now pos shotAction false false sA).pendingWaypoint = sA.pendingWaypoint) := by
  refine ⟨?_, ?_, ?_, ?_, ?_, ?_⟩
  · intro h
    simp [teleopHandleInteractionEnd, h]
  · intro h1 h2
    simp [teleopHandleInteractionEnd, h1, h2]
  · intro h1 h2 h3
    simp [teleopHandleInteractionEnd, h1, h2, h3]
  · intro h
    simp [autoHandleInteractionEnd, h]
  · intro h1 h2
    simp [autoHandleInteractionEnd, h1, h2]
  · intro h1 h2 h3
    simp [autoHandleInteractionEnd, h1, h2, h3]

/-- Witness for the amended C5 on concrete states: a score-mode tap on the
teleop tracker yields a score pending with zero fuel and an unchanged
(empty) log, and a collect-mode tap on the auto tracker appends one
collect action with `fuelDelta 8` without creating a pending. -/
theorem selection_tap_behavior_witness :
    (∃ w, (teleopHandleInteractionEnd "s1" 7 (0, 0) "shot_hub" false false
        { isSelectingScore := true }).pendingWaypoint = some w ∧
      w.type = PathActionType.score ∧
      (teleopHandleInteractionEnd "s1" 7 (0, 0) "shot_hub" false false
        { isSelectingScore := true }).accumulatedFuel = 0 ∧
      (teleopHandleInteractionEnd "s1" 7 (0, 0) "shot_hub" false false
        { isSelectingScore := true }).fuelHistory = [] ∧
      (teleopHandleInteractionEnd "s1" 7 (0, 0) "shot_hub" false false
        { isSelectingScore := true }).actions =
        TeleopState.actions { isSelectingScore := true }) ∧
    (∃ w, (autoHandleInteractionEnd "c1" 9 (0, 0) "collect_neutral" false false
        { isSelectingCollect := true }).actions =
        AutoState.actions { isSelectingCollect := true } ++ [w] ∧
      w.type = PathActionType.collect ∧ w.fuelDelta = some 8 ∧
      (autoHandleInteractionEnd "c1" 9 (0, 0) "collect_neutral" false false
        { isSelectingCollect := true }).pendingWaypoint =
        AutoState.pendingWaypoint { isSelectingCollect := true }) :=
  ⟨(selection_tap_behavior "s1" 7 (0, 0) "shot_hub" { isSelectingScore := true }
      {}).1 rfl,
   (selection_tap_behavior "c1" 9 (0, 0) "collect_neutral" {}
      { isSelectingCollect := true }).2.2.2.2.2 rfl rfl rfl⟩

/-- Claim C6: a quantity-based pending action (score or pass) is never
committed with zero accumulated quantity and a climb pending is never
committed without an outcome (in teleop, without a level): in those states
the popup's confirm button is disabled (`canConfirm` is false) and even
the underlying confirm handlers leave the state — in particular the
action log — unchanged; being total functions, they raise no exception. -/
theorem confirm_unavailable_on_incomplete (sT : TeleopState) (sA : AutoState)
    (w v : PathWaypoint) :
    (sT.pendingWaypoint = some w → w.type ≠ PathActionType.climb →
      sT.accumulatedFuel = 0 →
      canConfirm (w.type == PathActionType.climb) true sT.climbLevel
          sT.climbResult sT.accumulatedFuel = false ∧
      teleopConfirmClick sT = sT ∧ teleopHandleFuelConfirm sT = sT) ∧
    (sT.pendingWaypoint = some w → w.type = PathActionType.climb →
      sT.climbLevel = none →
      canConfirm (w.type == PathActionType.climb) true sT.climbLevel
          sT.climbResult sT.accumulatedFuel = false ∧
      teleopConfirmClick sT = sT ∧ teleopClimbConfirm sT = sT) ∧
    (sA.pendingWaypoint = some v → v.type ≠ PathActionType.climb →
      sA.accumulatedFuel = 0 →
      canConfirm (v.type == PathActionType.climb) false none sA.climbResult
          sA.accumulatedFuel = false ∧
      autoConfirmClick sA = sA) ∧
    (sA.pendingWaypoint = some v → v.type = PathActionType.climb →
      sA.climbResult = none →
      canConfirm (v.type == PathActionType.climb) false none sA.climbResult
          sA.accumulatedFuel = false ∧
      autoConfirmClick sA = sA) := by
  refine ⟨?_, ?_, ?_, ?_⟩
  · intro hp hw h0
    have hb : (w.type == PathActionType.climb) = false := by simp [hw]
    refine ⟨by simp [canConfirm, hb, h0], ?_, ?_⟩
    · simp [teleopConfirmClick, hp, canConfirm, hb, h0]
    · simp [teleopHandleFuelConfirm, hp, h0]
  · intro hp hw hl
    have hb : (w.type == PathActionType.climb) = true := by simp [hw]
    refine ⟨by simp [canConfirm, hb, hl], ?_, ?_⟩
    · simp [teleopConfirmClick, hp, canConfirm, hb, hl]
    · simp [teleopClimbConfirm, hp, hl]
  · intro hp hv h0
    have hb : (v.type == PathActionType.climb) = false := by simp [hv]
    refine ⟨by simp [canConfirm, hb, h0], ?_⟩
    simp [autoConfirmClick, hp, canConfirm, hb, h0]
  · intro hp hv hr
    have hb : (v.type == PathActionType.climb) = true := by simp [hv]
    refine ⟨by simp [canConfirm, hb, hr], ?_⟩
    simp [autoConfirmClick, hp, canConfirm, hb, hr]

/-- A teleop score pending waiting for an amount (zero fuel so far). -/
def exScorePending : PathWaypoint :=
  { id := "s", type := PathActionType.score, action := "shot_hub", timestamp := 1 }

/-- A climb pending fresh from a tower tap. -/
def exClimbPending : PathWaypoint :=
  { id := "c", type := PathActionType.climb, action := "attempt", timestamp := 2 }

/-- An auto pass pending waiting for an amount (zero fuel so far). -/
def exPassPending : PathWaypoint :=
  { id := "p", type := PathActionType.pass, action := "partner", timestamp := 3 }

/-- A placeholder waypoint for unused binders. -/
def exOtherWaypoint : PathWaypoint :=
  { id := "x", type := PathActionType.start, action := "", timestamp := 0 }

/-- Witness for C6 on concrete states: a teleop score pending with zero
fuel, a teleop climb pending without a level, an auto pass pending with
zero fuel and an auto climb pending without a result all leave the state
unchanged when confirm is pressed, and the first has a disabled confirm
button. -/
theorem confirm_unavailable_on_incomplete_witness :
    (canConfirm (exScorePending.type == PathActionType.climb) true none
        (some "success") 0 = false ∧
      teleopConfirmClick { pendingWaypoint := some exScorePending } =
        { pendingWaypoint := some exScorePending } ∧
      teleopHandleFuelConfirm { pendingWaypoint := some exScorePending } =
        { pendingWaypoint := some exScorePending }) ∧
    teleopConfirmClick { pendingWaypoint := some exClimbPending } =
      { pendingWaypoint := some exClimbPending } ∧
    autoConfirmClick { pendingWaypoint := some exPassPending } =
      { pendingWaypoint := some exPassPending } ∧
    autoConfirmClick { pendingWaypoint := some exClimbPending, climbResult := none } =
      { pendingWaypoint := some exClimbPending, climbResult := none } := by
  refine ⟨?_, ?_, ?_, ?_⟩
  · have h := (confirm_unavailable_on_incomplete
      { pendingWaypoint := some exScorePending } {} exScorePending
      exOtherWaypoint).1 rfl (by decide) rfl
    exact ⟨h.1, h.2.1, h.2.2⟩
  · exact ((confirm_unavailable_on_incomplete
      { pendingWaypoint := some exClimbPending } {} exClimbPending
      exOtherWaypoint).2.1 rfl rfl rfl).2.1
  · exact ((confirm_unavailable_on_incomplete {}
      { pendingWaypoint := some exPassPending } exOtherWaypoint
      exPassPending).2.2.1 rfl (by decide) rfl).2
  · exact ((confirm_unavailable_on_incomplete {}
      { pendingWaypoint := some exClimbPending, climbResult := none }
      exOtherWaypoint exClimbPending).2.2.2 rfl rfl rfl).2

/-- A teleop pass pending with 8 fuel accumulated. -/
def exTeleopPassState : TeleopState :=
  { pendingWaypoint := some
      { id := "p1"
        type := PathActionType.pass
        action := "partner"
        fuelDelta := some 0
        amountLabel := some "..."
        timestamp := 3 }
    accumulatedFuel := 8 }

/-- Counterexample to claim C2 as stated: confirming a teleop pass pending
with 8 accumulated fuel commits a pass action whose `fuelDelta` is `+8` —
positive, not negative. -/
theorem teleop_pass_commits_positive_delta :
    ((teleopConfirmClick exTeleopPassState).actions.map PathWaypoint.fuelDelta) =
        [some 8] ∧
      ¬ ((8 : Int) < 0) := by
  constructor <;> decide

/-- Claim C2 (amended): committed score actions carry a negative
`fuelDelta` in both trackers, committed collect actions carry the positive
`fuelDelta 8` in both trackers, and committed pass actions carry a
negative `fuelDelta` in the auto tracker but a positive one in the teleop
tracker (the teleop fuel confirm negates only score amounts). -/
theorem committed_fuel_delta_signs (sT : TeleopState) (sA : AutoState)
    (w v : PathWaypoint) (newId : String) (now : Int) (pos : ℚ × ℚ)
    (shotAction : String) :
    (sA.pendingWaypoint = some v →
      (v.type = PathActionType.score ∨ v.type = PathActionType.pass) →
      0 < sA.accumulatedFuel →
      ∃ w2, (autoConfirmClick sA).actions = sA.actions ++ [w2] ∧
        w2.fuelDelta = some (-sA.accumulatedFuel) ∧ -sA.accumulatedFuel < 0) ∧
    (sT.pendingWaypoint = some w → w.type = PathActionType.score →
      0 < sT.accumulatedFuel →
      ∃ w2, (teleopConfirmClick sT).actions = sT.actions ++ [w2] ∧
        w2.fuelDelta = some (-sT.accumulatedFuel) ∧ -sT.accumulatedFuel < 0) ∧
    (sT.pendingWaypoint = some w → w.type = PathActionType.pass →
      0 < sT.accumulatedFuel →
      ∃ w2, (teleopConfirmClick sT).actions = sT.actions ++ [w2] ∧
        w2.fuelDelta = some sT.accumulatedFuel ∧ 0 < sT.accumulatedFuel) ∧
    (sT.isSelectingScore = false → sT.isSelectingPass = false →
      sT.isSelectingCollect = true →
      ∃ w2, (teleopHandleInteractionEnd newId now pos shotAction false false sT).actions =
          sT.actions ++ [w2] ∧
        w2.type = PathActionType.collect ∧ w2.fuelDelta = some 8 ∧ (0 : Int) < 8) ∧
    (sA.isSelectingScore = false → sA.isSelectingPass = false →
      sA.isSelectingCollect = true →
      ∃ w2, (autoHandleInteractionEnd newId now pos shotAction false false sA).actions =
          sA.actions ++ [w2] ∧
        w2.type = PathActionType.collect ∧ w2.fuelDelta = some 8 ∧ (0 : Int) < 8) := by
  refine ⟨?_, ?_, ?_, ?_, ?_⟩
  · intro hp hsp hf
    have hb : (v.type == PathActionType.climb) = false := by
      rcases hsp with h | h <;> simp [h]
    have hneg : -sA.accumulatedFuel < 0 := by omega
    rcases hsp with h | h <;>
      simp [autoConfirmClick, autoOnConfirm, canConfirm, hp, h, hneg, hf]
  · intro hp hw hf
    have hfz : ¬ sT.accumulatedFuel = 0 := by omega
    have hneg : -sT.accumulatedFuel < 0 := by omega
    simp [teleopConfirmClick, teleopHandleFuelConfirm, canConfirm, hp, hw, hfz,
      hneg, hf]
  · intro hp hw hf
    have hfz : ¬ sT.accumulatedFuel = 0 := by omega
    simp [teleopConfirmClick, teleopHandleFuelConfirm, canConfirm, hp, hw, hfz, hf]
  · intro h1 h2 h3
    simp [teleopHandleInteractionEnd, h1, h2, h3]
  · intro h1 h2 h3
    simp [autoHandleInteractionEnd, h1, h2, h3]

/-- An auto score pending with 8 fuel accumulated. -/
def exAutoScoreState : AutoState :=
  { pendingWaypoint := some
      { id := "s2"
        type := PathActionType.score
        action := "shot_hub"
        fuelDelta := some (-8)
        amountLabel := some "..."
        timestamp := 4 }
    accumulatedFuel := 8 }

/-- Witness for the amended C2: confirming an auto score pending with 8
fuel appends an action with `fuelDelta -8 < 0`, confirming the teleop pass
pending with 8 fuel appends one with `fuelDelta +8 > 0`, and a collect tap
on the teleop tracker appends a collect action with `fuelDelta 8 > 0`. -/
theorem committed_fuel_delta_signs_witness :
    (∃ w2, (autoConfirmClick exAutoScoreState).actions =
        exAutoScoreState.actions ++ [w2] ∧
      w2.fuelDelta = some (-exAutoScoreState.accumulatedFuel) ∧
      -exAutoScoreState.accumulatedFuel < 0) ∧
    (∃ w2, (teleopConfirmClick exTeleopPassState).actions =
        exTeleopPassState.actions ++ [w2] ∧
      w2.fuelDelta = some exTeleopPassState.accumulatedFuel ∧
      0 < exTeleopPassState.accumulatedFuel) ∧
    (∃ w2, (teleopHandleInteractionEnd "k1" 6 (0, 0) "collect_neutral" false false
        { isSelectingCollect := true }).actions =
        TeleopState.actions { isSelectingCollect := true } ++ [w2] ∧
      w2.type = PathActionType.collect ∧ w2.fuelDelta = some 8 ∧ (0 : Int) < 8) :=
  ⟨(committed_fuel_delta_signs {} exAutoScoreState exOtherWaypoint
      { id := "s2", type := PathActionType.score, action := "shot_hub",
        fuelDelta := some (-8), amountLabel := some "...", timestamp := 4 }
      "k1" 6 (0, 0) "x").1 rfl (Or.inl rfl) (by decide),
   (committed_fuel_delta_signs exTeleopPassState {}
      { id := "p1", type := PathActionType.pass, action := "partner",
        fuelDelta := some 0, amountLabel := some "...", timestamp := 3 }
      exOtherWaypoint "k1" 6 (0, 0) "x").2.2.1 rfl rfl (by decide),
   (committed_fuel_delta_signs { isSelectingCollect := true } {}
      exOtherWaypoint exOtherWaypoint "k1" 6 (0, 0) "collect_neutral").2.2.2.1
      rfl rfl rfl⟩

/-- Claim C10: in both trackers, pressing undo while a broken-down
interval is open clears the interval's start marker without adding its
elapsed time to the stored broken-down total — the accumulated downtime is
unchanged and the open interval's elapsed time is discarded entirely
(whereas closing the interval with the toggle would have added
`now - start` to the total). -/
theorem undo_discards_open_interval
    (undoFn : List PathWaypoint → List PathWaypoint)
    (sT : TeleopState) (sA : AutoState) (t u now : Int) :
    (sT.brokenDownStart = some t → t ≠ 0 →
      (teleopHandleUndoWrapper undoFn sT).brokenDownStart = none ∧
      (teleopHandleUndoWrapper undoFn sT).totalBrokenDownTime =
        sT.totalBrokenDownTime ∧
      (teleopHandleBrokenDownToggle now sT).totalBrokenDownTime =
        sT.totalBrokenDownTime + (now - t)) ∧
    (sA.brokenDownStart = some u → u ≠ 0 →
      (autoHandleUndo undoFn sA).brokenDownStart = none ∧
      (autoHandleUndo undoFn sA).totalBrokenDownTime = sA.totalBrokenDownTime ∧
      (autoHandleBrokenDownToggle now sA).totalBrokenDownTime =
        sA.totalBrokenDownTime + (now - u)) := by
  constructor
  · intro hb ht
    refine ⟨?_, ?_, ?_⟩ <;>
      simp [teleopHandleUndoWrapper, teleopHandleBrokenDownToggle, jsTruthy, hb, ht]
  · intro hb hu
    refine ⟨?_, ?_, ?_⟩ <;>
      simp [autoHandleUndo, autoHandleBrokenDownToggle, jsTruthy, hb, hu]

/-- Witness for C10: on a teleop state broken down since time 50 with 100ms
already accumulated, undo clears the marker and keeps the total at 100,
while the toggle at time 70 would have made it 120; likewise on the auto
tracker. -/
theorem undo_discards_open_interval_witness :
    ((teleopHandleUndoWrapper id
        { brokenDownStart := some 50, totalBrokenDownTime := 100 }).brokenDownStart = none ∧
      (teleopHandleUndoWrapper id
        { brokenDownStart := some 50, totalBrokenDownTime := 100 }).totalBrokenDownTime =
        TeleopState.totalBrokenDownTime
          { brokenDownStart := some 50, totalBrokenDownTime := 100 } ∧
      (teleopHandleBrokenDownToggle 70
        { brokenDownStart := some 50, totalBrokenDownTime := 100 }).totalBrokenDownTime =
        TeleopState.totalBrokenDownTime
          { brokenDownStart := some 50, totalBrokenDownTime := 100 } + (70 - 50)) ∧
    ((autoHandleUndo id
        { brokenDownStart := some 50, totalBrokenDownTime := 100 }).brokenDownStart = none ∧
      (autoHandleUndo id
        { brokenDownStart := some 50, totalBrokenDownTime := 100 }).totalBrokenDownTime =
        AutoState.totalBrokenDownTime
          { brokenDownStart := some 50, totalBrokenDownTime := 100 } ∧
      (autoHandleBrokenDownToggle 70
        { brokenDownStart := some 50, totalBrokenDownTime := 100 }).totalBrokenDownTime =
        AutoState.totalBrokenDownTime
          { brokenDownStart := some 50, totalBrokenDownTime := 100 } + (70 - 50)) :=
  ⟨(undo_discards_open_interval id
      { brokenDownStart := some 50, totalBrokenDownTime := 100 } {} 50 0 70).1
      rfl (by decide),
   (undo_discards_open_interval id {}
      { brokenDownStart := some 50, totalBrokenDownTime := 100 } 0 50 70).2
      rfl (by decide)⟩

end Maneuver
